import Mathlib

/-!
Shallow embedding of CppSqlWrapper (CppSqlWrapper.cpp / CppSqlWrapper.h), a thin
C++ wrapper over the SQLite3 engine.  Wrapper-side state is made explicit
(StmtState, DbState); engine-side results (step outcomes, column reads,
prepare tails) are inputs to the translated functions, mirroring the values
the sqlite3_* primitives return to the wrapper.  C++ exceptions become
Except values; since a thrown exception leaves the object fields as they were
at the throw site, statement operations return the mutated-so-far state next
to the Except outcome.
-/

namespace CppSql

/-- Engine status codes from sqlite3.h used by the wrapper source. -/
def SQLITE_OK : Int := 0

/-- Engine status code SQLITE_ERROR. -/
def SQLITE_ERROR : Int := 1

/-- Engine status code SQLITE_BUSY (lock contention). -/
def SQLITE_BUSY : Int := 5

/-- Engine status code SQLITE_ROW (a result row is available after a step). -/
def SQLITE_ROW : Int := 100

/-- Engine status code SQLITE_DONE (a step finished with no further rows). -/
def SQLITE_DONE : Int := 101

/-- Column runtime type tag SQLITE_NULL from enum SqlType in the header. -/
def SQLITE_NULL : Int := 5

/-- Column runtime type tag SQLITE_INTEGER from enum SqlType in the header. -/
def SQLITE_INTEGER : Int := 1

/-- Exceptions thrown by the wrapper: busyExc is SqlDatabaseBusyException and
dbExc is SqlDatabaseException carrying its message.  A message of none marks
the one place where the C++ would read outside the bounds of its
status-description table, so no well-defined message exists. -/
inductive SqlError where
  | busyExc : SqlError
  | dbExc : Option String → SqlError
deriving DecidableEq

/-- Message thrown by the require(mpVM) check (the assert in the source
stringizes its argument). -/
def requireVMmsg : String := "Assertion failed: mpVM != NULL"

/-- Message thrown by the require(mpDB) check. -/
def requireDBmsg : String := "Assertion failed: mpDB != NULL"

/-- The 27-entry status-description table code_descr in
ThrowStatusCodeException, copied verbatim from the source. -/
def code_descr : List String := ["SQLITE_OK", "SQLITE_ERROR", "SQLITE_INTERNAL", "SQLITE_PERM",
  "SQLITE_ABORT", "SQLITE_BUSY", "SQLITE_LOCKED", "SQLITE_NOMEM", "SQLITE_READONLY", "SQLITE_INTERRUPT",
  "SQLITE_IOERR", "SQLITE_CORRUPT", "SQLITE_NOTFOUND", "SQLITE_FULL", "SQLITE_CANTOPEN",
  "SQLITE_PROTOCOL", "SQLITE_EMPTY", "SQLITE_SCHEMA", "SQLITE_TOOBIG", "SQLITE_CONSTRAINT",
  "SQLITE_MISMATCH", "SQLITE_MISUSE", "SQLITE_NOLFS", "SQLITE_AUTH", "SQLITE_FORMAT", "SQLITE_RANGE",
  "SQLITE_NOTADB"]

/-- The bounds test the source performs before indexing code_descr, namely
statusCode < int(sizeof(code_descr)/sizeof(code_descr[0])).  Note there is no
lower-bound test in the source. -/
def descrLookupGuard (statusCode : Int) : Bool :=
  statusCode < (code_descr.length : Int)

/-- Reading code_descr[statusCode]: some entry when the index lies inside the
table, none when the C++ read would be out of bounds. -/
def descrAt (statusCode : Int) : Option String :=
  if 0 ≤ statusCode then code_descr.get? statusCode.toNat else none

/-- The message built in the final branch of ThrowStatusCodeException:
the bare code, extended with the symbolic name whenever the bounds test
descrLookupGuard passes; none when that test passes on an index outside the
table (an out-of-bounds read in the C++). -/
def statusCodeMessage (statusCode : Int) : Option String :=
  if descrLookupGuard statusCode then
    (descrAt statusCode).map (fun d => "Result code " ++ toString statusCode ++ " (" ++ d ++ ")")
  else
    some ("Result code " ++ toString statusCode)

/-- ThrowStatusCodeException(statusCode, db): the dedicated busy exception on
SQLITE_BUSY, the detailed engine text (errmsg models sqlite3_errmsg) on
SQLITE_ERROR, and the rendered status-code message otherwise. -/
def throwStatusCodeException (statusCode : Int) (errmsg : String) : SqlError :=
  if statusCode = SQLITE_BUSY then .busyExc
  else if statusCode = SQLITE_ERROR then .dbExc (some errmsg)
  else .dbExc (statusCodeMessage statusCode)

/-- Fields of class SqlStatement; mpVM none models a NULL native
prepared-statement handle. -/
structure StmtState where
  mpVM : Option Nat
  mBindNext : Int
  mEndOfRows : Bool
  mColsInResult : Int
deriving DecidableEq

/-- SqlStatement::hasRow. -/
def hasRow (s : StmtState) : Bool := !s.mEndOfRows

/-- SqlStatement::onBind: requires a live handle; when about to bind
parameter 1 it resets the engine statement and clears the previous result
state. -/
def onBind (s : StmtState) : StmtState × Except SqlError Unit :=
  match s.mpVM with
  | none => (s, .error (.dbExc (some requireVMmsg)))
  | some _ =>
    if s.mBindNext = 1 then
      ({ s with mEndOfRows := true, mColsInResult := 0 }, .ok ())
    else (s, .ok ())

/-- Shared tail of every typed bind in the source: mBindNext++ happens while
the engine bind call is made, then a failed engine bind throws failMsg.
engineBindOk models whether the sqlite3_bind_* call returns SQLITE_OK. -/
def bindTail (s : StmtState) (engineBindOk : Bool) (failMsg : String) :
    StmtState × Except SqlError Unit :=
  match onBind s with
  | (s1, .error e) => (s1, .error e)
  | (s1, .ok _) =>
    let s2 := { s1 with mBindNext := s1.mBindNext + 1 }
    if engineBindOk then (s2, .ok ()) else (s2, .error (.dbExc (some failMsg)))

/-- SqlStatement::bind(const char*). -/
def bindText (s : StmtState) (engineBindOk : Bool) : StmtState × Except SqlError Unit :=
  bindTail s engineBindOk "Error binding string param."

/-- SqlStatement::bind(const int). -/
def bindInt (s : StmtState) (engineBindOk : Bool) : StmtState × Except SqlError Unit :=
  bindTail s engineBindOk "Error binding int param"

/-- SqlStatement::bind(const int64_t). -/
def bindInt64 (s : StmtState) (engineBindOk : Bool) : StmtState × Except SqlError Unit :=
  bindTail s engineBindOk "Error binding int param"

/-- SqlStatement::bind(const double). -/
def bindDouble (s : StmtState) (engineBindOk : Bool) : StmtState × Except SqlError Unit :=
  bindTail s engineBindOk "Error binding double param"

/-- SqlStatement::bind(const unsigned char*, int). -/
def bindBlob (s : StmtState) (engineBindOk : Bool) : StmtState × Except SqlError Unit :=
  bindTail s engineBindOk "Error binding blob param"

/-- SqlStatement::bindNull. -/
def bindNull (s : StmtState) (engineBindOk : Bool) : StmtState × Except SqlError Unit :=
  bindTail s engineBindOk "Error binding NULL param"

/-- SqlStatement::bindSame: onBind, then only the cursor advances (no engine
call is made). -/
def bindSame (s : StmtState) : StmtState × Except SqlError Unit :=
  match onBind s with
  | (s1, .error e) => (s1, .error e)
  | (s1, .ok _) => ({ s1 with mBindNext := s1.mBindNext + 1 }, .ok ())

/-- Engine calls SqlStatement::execute makes: how many sqlite3_reset and
sqlite3_step calls were issued. -/
structure ExecTrace where
  resets : Nat
  steps : Nat
deriving DecidableEq

/-- SqlStatement::execute.  stepResult models the value sqlite3_step returns,
engineColCount models sqlite3_column_count, errmsg models sqlite3_errmsg. -/
def execute (s : StmtState) (stepResult : Int) (engineColCount : Int) (errmsg : String) :
    StmtState × ExecTrace × Except SqlError Unit :=
  match s.mpVM with
  | none => (s, ⟨0, 0⟩, .error (.dbExc (some requireVMmsg)))
  | some _ =>
    let s1 := { s with mBindNext := 1 }
    let r : Nat := if s1.mEndOfRows then 0 else 1
    if stepResult = SQLITE_DONE then
      ({ s1 with mEndOfRows := true, mColsInResult := 0 }, ⟨r, 1⟩, .ok ())
    else if stepResult = SQLITE_ROW then
      ({ s1 with mEndOfRows := false, mColsInResult := engineColCount }, ⟨r, 1⟩, .ok ())
    else
      (s1, ⟨r, 1⟩, .error (throwStatusCodeException stepResult errmsg))

/-- SqlStatement::nextRow.  In the error branch the source throws before the
assignment mEndOfRows = true that follows the throw, so that assignment never
executes and the state is returned unchanged. -/
def nextRow (s : StmtState) (stepResult : Int) (errmsg : String) :
    StmtState × Except SqlError Bool :=
  match s.mpVM with
  | none => (s, .error (.dbExc (some requireVMmsg)))
  | some _ =>
    if s.mEndOfRows then (s, .ok false)
    else if stepResult = SQLITE_DONE then ({ s with mEndOfRows := true }, .ok false)
    else if stepResult = SQLITE_ROW then ({ s with mEndOfRows := false }, .ok true)
    else (s, .error (throwStatusCodeException stepResult errmsg))

/-- Message thrown by SqlStatement::currentRow when no row is current (the
InvalidState error of the specification taxonomy). -/
def noRowMsg : String := "called currentRow() after reaching end of rows"

/-- SqlStatement::currentRow: ok () means the ResultRow reference is handed
out. -/
def currentRow (s : StmtState) : Except SqlError Unit :=
  match s.mpVM with
  | none => .error (.dbExc (some requireVMmsg))
  | some _ =>
    if s.mEndOfRows then .error (.dbExc (some noRowMsg))
    else .ok ()

/-- Engine-side view of the current row: what the sqlite3_column_* primitives
return at each column index for the row the statement is positioned on. -/
structure EngineRow where
  colType : Int → Int
  colInt : Int → Int
  colInt64 : Int → Int
  colDouble : Int → Float
  colText : Int → String
  colName : Int → String

/-- SqlStatement::ResultRow::numFields: requires a live handle and returns
the mColsInResult field of the parent statement. -/
def numFields (s : StmtState) : Except SqlError Int :=
  match s.mpVM with
  | none => .error (.dbExc (some requireVMmsg))
  | some _ => .ok s.mColsInResult

/-- The only public route to the row accessor: stmt.currentRow().numFields()
(the mResult member is private, so callers reach numFields through
currentRow). -/
def currentRowNumFields (s : StmtState) : Except SqlError Int := do
  let _ ← currentRow s
  numFields s

/-- Message thrown by SqlStatement::ResultRow::checkIndex. -/
def badIndexMsg : String := "Invalid column index."

/-- SqlStatement::ResultRow::checkIndex. -/
def checkIndex (s : StmtState) (nField : Int) : Except SqlError Unit :=
  if nField < 0 ∨ s.mColsInResult ≤ nField then .error (.dbExc (some badIndexMsg))
  else .ok ()

/-- SqlStatement::ResultRow::fieldDataType: the engine-reported runtime type
of the cell, after the handle and index checks. -/
def fieldDataType (s : StmtState) (e : EngineRow) (nField : Int) : Except SqlError Int :=
  match s.mpVM with
  | none => .error (.dbExc (some requireVMmsg))
  | some _ => do
    let _ ← checkIndex s nField
    pure (e.colType nField)

/-- SqlStatement::ResultRow::getIntField(int, int). -/
def getIntField (s : StmtState) (e : EngineRow) (nField : Int) (nNullValue : Int) :
    Except SqlError Int := do
  let t ← fieldDataType s e nField
  if t = SQLITE_NULL then pure nNullValue else pure (e.colInt nField)

/-- SqlStatement::ResultRow::getInt64Field(int, int). -/
def getInt64Field (s : StmtState) (e : EngineRow) (nField : Int) (nNullValue : Int) :
    Except SqlError Int := do
  let t ← fieldDataType s e nField
  if t = SQLITE_NULL then pure nNullValue else pure (e.colInt64 nField)

/-- SqlStatement::ResultRow::getFloatField(int, double). -/
def getFloatField (s : StmtState) (e : EngineRow) (nField : Int) (fNullValue : Float) :
    Except SqlError Float := do
  let t ← fieldDataType s e nField
  if t = SQLITE_NULL then pure fNullValue else pure (e.colDouble nField)

/-- SqlStatement::ResultRow::getStringField(int, const char*). -/
def getStringField (s : StmtState) (e : EngineRow) (nField : Int) (szNullValue : String) :
    Except SqlError String := do
  let t ← fieldDataType s e nField
  if t = SQLITE_NULL then pure szNullValue else pure (e.colText nField)

/-- Message thrown by SqlStatement::ResultRow::fieldIndex when no column name
matches (the FieldNotFound error of the specification taxonomy). -/
def fieldNotFoundMsg : String := "Invalid field name requested"

/-- The for-loop of SqlStatement::ResultRow::fieldIndex: scan columns
i, i+1, ... while remaining counts down, returning the first index whose
engine column name equals szField. -/
def fieldScan (e : EngineRow) (szField : String) (remaining : Nat) (i : Nat) : Option Int :=
  match remaining with
  | 0 => none
  | c + 1 =>
    if szField = e.colName (Int.ofNat i) then some (Int.ofNat i)
    else fieldScan e szField c (i + 1)

/-- SqlStatement::ResultRow::fieldIndex. -/
def fieldIndex (s : StmtState) (e : EngineRow) (szField : String) : Except SqlError Int :=
  match s.mpVM with
  | none => .error (.dbExc (some requireVMmsg))
  | some _ =>
    match fieldScan e szField s.mColsInResult.toNat 0 with
    | some i => .ok i
    | none => .error (.dbExc (some fieldNotFoundMsg))

/-- SqlStatement::ResultRow::getIntField(const char*, int): delegates to
fieldIndex then the index-based form. -/
def getIntFieldByName (s : StmtState) (e : EngineRow) (szField : String) (nNullValue : Int) :
    Except SqlError Int := do
  let i ← fieldIndex s e szField
  getIntField s e i nNullValue

/-- SqlStatement::ResultRow::getInt64Field(const char*, int). -/
def getInt64FieldByName (s : StmtState) (e : EngineRow) (szField : String) (nNullValue : Int) :
    Except SqlError Int := do
  let i ← fieldIndex s e szField
  getInt64Field s e i nNullValue

/-- SqlStatement::ResultRow::getFloatField(const char*, double). -/
def getFloatFieldByName (s : StmtState) (e : EngineRow) (szField : String) (fNullValue : Float) :
    Except SqlError Float := do
  let i ← fieldIndex s e szField
  getFloatField s e i fNullValue

/-- SqlStatement::ResultRow::getStringField(const char*, const char*). -/
def getStringFieldByName (s : StmtState) (e : EngineRow) (szField : String) (szNullValue : String) :
    Except SqlError String := do
  let i ← fieldIndex s e szField
  getStringField s e i szNullValue

/-- SqlStatement::destroy: sets mEndOfRows and finalizes a live handle; the
Bool reports whether sqlite3_finalize was called. -/
def destroy (s : StmtState) : StmtState × Bool :=
  match s.mpVM with
  | some _ => ({ s with mEndOfRows := true, mpVM := none }, true)
  | none => ({ s with mEndOfRows := true }, false)

/-- The SqlStatement destructor calls destroy; the Bool reports whether the
native handle was finalized. -/
def stmtDtorFinalizes (s : StmtState) : Bool := (destroy s).2

/-- SqlStatement copy constructor: copies all four data fields and then nulls
the mpVM of the source object.  First component: the new object; second: the
source after the copy. -/
def stmtCopyCtor (r : StmtState) : StmtState × StmtState :=
  ({ mpVM := r.mpVM, mBindNext := r.mBindNext, mEndOfRows := r.mEndOfRows,
     mColsInResult := r.mColsInResult },
   { r with mpVM := none })

/-- SqlStatement copy assignment: destroys the destination, copies the fields,
then nulls the mpVM of the source.  Components: the new destination, the
source after the copy, and whether the old destination handle was
finalized. -/
def stmtCopyAssign (dst r : StmtState) : StmtState × StmtState × Bool :=
  let d := destroy dst
  ({ mpVM := r.mpVM, mBindNext := r.mBindNext, mEndOfRows := r.mEndOfRows,
     mColsInResult := r.mColsInResult },
   { r with mpVM := none }, d.2)

/-- Fields of class SqlDatabase; mpDB none models a NULL native connection
handle. -/
structure DbState where
  mpDB : Option Nat
  mnBusyTimeoutMs : Int
deriving DecidableEq

/-- SqlDatabase copy constructor: copies the handle pointer and resets the
timeout to 60000; the source object is left untouched (its mpDB is not
nulled).  First component: the new object; second: the source after the
copy. -/
def dbCopyCtor (db : DbState) : DbState × DbState :=
  ({ mpDB := db.mpDB, mnBusyTimeoutMs := 60000 }, db)

/-- SqlDatabase copy assignment: overwrites the destination with the handle
pointer of the source and the default timeout; the source is left untouched.
First component: the new destination; second: the source after the copy. -/
def dbCopyAssign (_dst db : DbState) : DbState × DbState :=
  ({ mpDB := db.mpDB, mnBusyTimeoutMs := 60000 }, db)

/-- Message thrown by SqlDatabase::close when a derived statement is still
live (the StatementsStillOpen error of the specification taxonomy). -/
def closeStmtsMsg : String :=
  "Tried to close a database before deleting or calling destroy() on all statement objects."

/-- Modelled from the spec: sqlite3_close (not part of this repository)
refuses to close a connection handle while prepared statements derived from
it are still live, reporting the busy status, and succeeds otherwise. -/
def engineCloseResult (engineHasLiveStmt : Bool) : Int :=
  if engineHasLiveStmt then SQLITE_BUSY else SQLITE_OK

/-- SqlDatabase::close.  engineHasLiveStmt models whether
sqlite3_next_stmt(mpDB, 0) returns a non-null statement; errmsg models
sqlite3_errmsg for the status path. -/
def close (db : DbState) (engineHasLiveStmt : Bool) (errmsg : String) :
    DbState × Except SqlError Unit :=
  match db.mpDB with
  | none => (db, .ok ())
  | some _ =>
    if engineHasLiveStmt then (db, .error (.dbExc (some closeStmtsMsg)))
    else
      let result := engineCloseResult engineHasLiveStmt
      if result ≠ SQLITE_OK then (db, .error (throwStatusCodeException result errmsg))
      else ({ db with mpDB := none }, .ok ())

/-- Connection handle together with the count of live prepared statements the
engine tracks for it (what sqlite3_next_stmt enumerates). -/
structure World where
  db : DbState
  liveStmts : Nat
deriving DecidableEq

/-- SqlDatabase::close at the world level: the engine reports a live
statement exactly when liveStmts is nonzero. -/
def closeW (w : World) : World × Except SqlError Unit :=
  let r := close w.db (w.liveStmts != 0) ""
  ({ w with db := r.1 }, r.2)

/-- Destroying one derived statement, as the engine sees it: sqlite3_finalize
removes it from the list of statements of the connection. -/
def destroyDerivedStmt (w : World) : World := { w with liveStmts := w.liveStmts - 1 }

/-- The SqlDatabase destructor: calls close inside a try block and swallows
every exception, so only the state survives. -/
def dbDtor (w : World) : World := (closeW w).1

/-- Message thrown by SqlDatabase::sqlCompile when trailing text remains
(the MultipleStatements error of the specification taxonomy). -/
def compileMsg : String :=
  "sqlCompile() only compiles the first statement; other statements have been ignored."

/-- SqlDatabase::sqlCompile.  prepResult and tail model what
sqlite3_prepare_v2 returns and writes through its tail out-parameter; newVM
models the handle of the freshly prepared statement; errmsg models
sqlite3_errmsg.  The source computes extra_statements as szTail[0] != 0,
an emptiness test on the tail, before the two error checks. -/
def sqlCompile (db : DbState) (prepResult : Int) (tail : String) (newVM : Nat)
    (errmsg : String) : Except SqlError StmtState :=
  match db.mpDB with
  | none => .error (.dbExc (some requireDBmsg))
  | some _ =>
    let extra_statements : Bool := tail != ""
    if prepResult ≠ SQLITE_OK then .error (throwStatusCodeException prepResult errmsg)
    else if extra_statements then .error (.dbExc (some compileMsg))
    else .ok { mpVM := some newVM, mBindNext := 1, mEndOfRows := true, mColsInResult := 0 }

/-- Characters after the first semicolon of the list, or none at all. -/
def charsAfterSemicolon : List Char → List Char
  | [] => []
  | c :: rest => if c = ';' then rest else charsAfterSemicolon rest

/-- Modelled from the spec: the tail sqlite3_prepare_v2 (not part of this
repository) writes is the first byte past the end of the first SQL statement;
a statement ends at its terminating semicolon, so every character after that
semicolon, whitespace included, remains in the tail. -/
def prepareTail (sql : String) : String :=
  String.mk (charsAfterSemicolon sql.data)

/-- SqlDatabase::getScalar, given the statement q that sqlQuery(szSQL)
returned (already executed once) and the engine view of its current row.
The source short-circuits: currentRow() is reached only when hasRow() is
true. -/
def getScalar (q : StmtState) (e : EngineRow) (errorValue : Int) : Except SqlError Int :=
  if hasRow q = false then .ok errorValue
  else do
    let _ ← currentRow q
    let n ← numFields q
    if n < 1 then pure errorValue
    else do
      let _ ← currentRow q
      getIntField q e 0 0

/-- Single-quote character, written by code point to keep the embedded SQL
text faithful to the source. -/
def sq : String := String.singleton (Char.ofNat 39)

/-- The sprintf format string in SqlDatabase::tableExists, rebuilt verbatim
(sq is the single-quote character). -/
def tableExistsFmt : String :=
  "SELECT COUNT(*) FROM sqlite_master WHERE type=" ++ sq ++ "table" ++ sq ++
    " AND name=" ++ sq ++ "%s" ++ sq

/-- Size in bytes of the stack buffer char szSQL[128] in tableExists. -/
def tableExistsBufSize : Nat := 128

/-- Bytes sprintf writes into szSQL for a table name of nameBytes bytes: the
format text minus the two bytes of the %s directive, plus the name, plus the
terminating NUL.  tableExists performs no length check on the name before
this write. -/
def tableExistsBytesWritten (nameBytes : Nat) : Nat :=
  (tableExistsFmt.utf8ByteSize - 2) + nameBytes + 1

/-- SqlDatabase::tableExists, after the sprintf: getScalar with the default
sentinel -1, then the comparison nRet > 0. -/
def tableExists (q : StmtState) (e : EngineRow) : Except SqlError Bool := do
  let nRet ← getScalar q e (-1)
  pure (0 < nRet)

/-- A statement state whose previous result has been discarded: the end-of-rows
flag is set, the column count cleared, and the public route
currentRow().numFields() fails with the no-current-row error. -/
def discardsResult (s2 : StmtState) : Prop :=
  s2.mEndOfRows = true ∧ s2.mColsInResult = 0 ∧
  currentRowNumFields s2 = .error (.dbExc (some noRowMsg))

/-- A sample two-column engine row used to evaluate the model on concrete
input: both cells hold integers, columns are named id and name. -/
def sampleRow : EngineRow :=
  ⟨fun _ => SQLITE_INTEGER, fun _ => 42, fun _ => 43, fun _ => 1.5, fun _ => "t",
   fun j => if j = 0 then "id" else "name"⟩

/-- The engine row a COUNT query that matches nothing yields: one integer
cell holding 0. -/
def countEmptyRow : EngineRow :=
  ⟨fun _ => SQLITE_INTEGER, fun _ => 0, fun _ => 0, fun _ => 0.0, fun _ => "0",
   fun _ => "COUNT(*)"⟩

/-- An engine row whose every cell has the null runtime type. -/
def nullRow : EngineRow :=
  ⟨fun _ => SQLITE_NULL, fun _ => 0, fun _ => 0, fun _ => 0.0, fun _ => "",
   fun _ => "c"⟩

/-!
Theorems.  Each claim of the specification is settled below; counterexamples
are closed evaluations of the model at explicit inputs.
-/

/-- C1 counterexample: copying a database connection does NOT null out the
source; after the copy the source still holds the native handle (here
handle 7), so the source is not a non-owning shell. -/
theorem C1_counterexample :
    (dbCopyCtor ⟨some 7, 60000⟩).2.mpDB = some 7 ∧
    ¬ ((dbCopyCtor ⟨some 7, 60000⟩).2.mpDB = none) := by
  exact ⟨rfl, by decide⟩

/-- C1 amended: copying a statement handle (copy constructor or copy
assignment) transfers the native handle and nulls out the source, whose
destructor then finalizes nothing; copying a database connection (a private
operation) duplicates the handle pointer and leaves the source untouched,
still owning the handle. -/
theorem C1_amended (st dst : StmtState) (db dbdst : DbState) :
    ((stmtCopyCtor st).1.mpVM = st.mpVM ∧ (stmtCopyCtor st).2.mpVM = none ∧
      stmtDtorFinalizes (stmtCopyCtor st).2 = false) ∧
    ((stmtCopyAssign dst st).1.mpVM = st.mpVM ∧ (stmtCopyAssign dst st).2.1.mpVM = none ∧
      stmtDtorFinalizes (stmtCopyAssign dst st).2.1 = false) ∧
    ((dbCopyCtor db).1.mpDB = db.mpDB ∧ (dbCopyCtor db).2 = db) ∧
    ((dbCopyAssign dbdst db).1.mpDB = db.mpDB ∧ (dbCopyAssign dbdst db).2 = db) :=
  ⟨⟨rfl, rfl, rfl⟩, ⟨rfl, rfl, rfl⟩, ⟨rfl, rfl⟩, ⟨rfl, rfl⟩⟩

/-- C1 amended witness: the amended statement evaluated at concrete states. -/
theorem C1_amended_witness :
    ((stmtCopyCtor ⟨some 3, 2, false, 4⟩).1.mpVM = (⟨some 3, 2, false, 4⟩ : StmtState).mpVM ∧
      (stmtCopyCtor ⟨some 3, 2, false, 4⟩).2.mpVM = none ∧
      stmtDtorFinalizes (stmtCopyCtor ⟨some 3, 2, false, 4⟩).2 = false) ∧
    ((stmtCopyAssign ⟨some 9, 1, true, 0⟩ ⟨some 3, 2, false, 4⟩).1.mpVM =
        (⟨some 3, 2, false, 4⟩ : StmtState).mpVM ∧
      (stmtCopyAssign ⟨some 9, 1, true, 0⟩ ⟨some 3, 2, false, 4⟩).2.1.mpVM = none ∧
      stmtDtorFinalizes (stmtCopyAssign ⟨some 9, 1, true, 0⟩ ⟨some 3, 2, false, 4⟩).2.1 = false) ∧
    ((dbCopyCtor ⟨some 7, 500⟩).1.mpDB = (⟨some 7, 500⟩ : DbState).mpDB ∧
      (dbCopyCtor ⟨some 7, 500⟩).2 = ⟨some 7, 500⟩) ∧
    ((dbCopyAssign ⟨some 8, 600⟩ ⟨some 7, 500⟩).1.mpDB = (⟨some 7, 500⟩ : DbState).mpDB ∧
      (dbCopyAssign ⟨some 8, 600⟩ ⟨some 7, 500⟩).2 = ⟨some 7, 500⟩) :=
  C1_amended ⟨some 3, 2, false, 4⟩ ⟨some 9, 1, true, 0⟩ ⟨some 7, 500⟩ ⟨some 8, 600⟩

/-- C3 counterexample: the text SELECT 1 followed by a semicolon and a space
is one statement followed only by whitespace; the engine tail is the single
space, yet sqlCompile on an open connection with a successful prepare raises
the multiple-statements error instead of compiling successfully. -/
theorem C3_counterexample :
    prepareTail "SELECT 1; " = " " ∧
    " ".data.all Char.isWhitespace = true ∧
    sqlCompile ⟨some 1, 60000⟩ SQLITE_OK (prepareTail "SELECT 1; ") 2 "" =
      .error (.dbExc (some compileMsg)) :=
  ⟨by decide, by decide, rfl⟩

/-- C3 amended: sqlCompile with a successful prepare raises the
multiple-statements error if and only if the engine tail is nonempty; any
trailing character after the first statement, whitespace included, triggers
it, and an empty tail compiles into a fresh statement handle. -/
theorem C3_amended (h vm : Nat) (tmo : Int) (tail msg : String) :
    (sqlCompile ⟨some h, tmo⟩ SQLITE_OK tail vm msg = .error (.dbExc (some compileMsg)) ↔
      tail ≠ "") ∧
    (tail = "" → sqlCompile ⟨some h, tmo⟩ SQLITE_OK tail vm msg =
      .ok ⟨some vm, 1, true, 0⟩) := by
  constructor
  · by_cases hc : tail = "" <;> simp [sqlCompile, SQLITE_OK, hc]
  · intro hc
    simp [sqlCompile, SQLITE_OK, hc]

/-- C3 amended witness: the amended statement evaluated at an empty and at a
whitespace tail. -/
theorem C3_amended_witness :
    ((sqlCompile ⟨some 1, 60000⟩ SQLITE_OK "" 2 "" = .error (.dbExc (some compileMsg)) ↔
        ("" : String) ≠ "") ∧
      (("" : String) = "" → sqlCompile ⟨some 1, 60000⟩ SQLITE_OK "" 2 "" =
        .ok ⟨some 2, 1, true, 0⟩)) ∧
    ((sqlCompile ⟨some 1, 60000⟩ SQLITE_OK " " 2 "" = .error (.dbExc (some compileMsg)) ↔
        (" " : String) ≠ "") ∧
      ((" " : String) = "" → sqlCompile ⟨some 1, 60000⟩ SQLITE_OK " " 2 "" =
        .ok ⟨some 2, 1, true, 0⟩)) :=
  ⟨C3_amended 1 2 60000 "" "", C3_amended 1 2 60000 " " ""⟩

/-- C9: the fixed query text of the sprintf in tableExists occupies 66 bytes
of the 128-byte stack buffer including the terminator, so the write stays
within the buffer exactly when the table name is at most 62 bytes long. -/
theorem C9_tableExists_buffer (nameBytes : Nat) :
    (tableExistsFmt.utf8ByteSize - 2) + 1 = 66 ∧
    tableExistsBufSize = 128 ∧
    (tableExistsBytesWritten nameBytes ≤ tableExistsBufSize ↔ nameBytes ≤ 62) := by
  have h : tableExistsFmt.utf8ByteSize = 67 := by decide
  refine ⟨by omega, rfl, ?_⟩
  simp only [tableExistsBytesWritten, tableExistsBufSize, h]
  omega

/-- C9 witness: the bound evaluated at the boundary lengths 62 and 63. -/
theorem C9_tableExists_buffer_witness :
    (tableExistsBytesWritten 62 ≤ tableExistsBufSize ↔ (62 : Nat) ≤ 62) ∧
    (tableExistsBytesWritten 63 ≤ tableExistsBufSize ↔ (63 : Nat) ≤ 62) :=
  ⟨(C9_tableExists_buffer 62).2.2, (C9_tableExists_buffer 63).2.2⟩

/-- C10: when the step inside nextRow reports a status that is neither done
nor row, the typed exception propagates with the statement state unchanged:
the end-of-rows assignment placed after the throw never executes, so the
statement still reports hasRow true. -/
theorem C10_nextRow_preserves_state (v : Nat) (bn cols code : Int) (msg : String)
    (h1 : code ≠ SQLITE_DONE) (h2 : code ≠ SQLITE_ROW) :
    nextRow ⟨some v, bn, false, cols⟩ code msg =
      (⟨some v, bn, false, cols⟩, .error (throwStatusCodeException code msg)) ∧
    hasRow (nextRow ⟨some v, bn, false, cols⟩ code msg).1 = true := by
  constructor
  · simp [nextRow, h1, h2]
  · simp [nextRow, h1, h2, hasRow]

/-- C10 witness: a failing step (status 7, SQLITE_NOMEM) inside nextRow
leaves the statement state untouched and hasRow true. -/
theorem C10_witness :
    (nextRow ⟨some 0, 1, false, 2⟩ 7 "m" =
      (⟨some 0, 1, false, 2⟩, .error (throwStatusCodeException 7 "m"))) ∧
    hasRow (nextRow ⟨some 0, 1, false, 2⟩ 7 "m").1 = true :=
  C10_nextRow_preserves_state 0 1 2 7 "m" (by decide) (by decide)

/-- C2: on a statement whose bind cursor is back at 1 (the state every
execute leaves behind), any bind overload discards the previous result
state, and the public numFields route, currentRow().numFields(), then fails
with the no-current-row error instead of returning stale data, until a new
execute.  The discard happens in onBind before the engine bind call, so it
holds whether or not that call succeeds. -/
theorem C2_rebind_discards_result (v : Nat) (eor : Bool) (c0 : Int) (ok : Bool) :
    discardsResult (bindText ⟨some v, 1, eor, c0⟩ ok).1 ∧
    discardsResult (bindInt ⟨some v, 1, eor, c0⟩ ok).1 ∧
    discardsResult (bindInt64 ⟨some v, 1, eor, c0⟩ ok).1 ∧
    discardsResult (bindDouble ⟨some v, 1, eor, c0⟩ ok).1 ∧
    discardsResult (bindBlob ⟨some v, 1, eor, c0⟩ ok).1 ∧
    discardsResult (bindNull ⟨some v, 1, eor, c0⟩ ok).1 ∧
    discardsResult (bindSame ⟨some v, 1, eor, c0⟩).1 := by
  cases ok <;>
    exact ⟨⟨rfl, rfl, rfl⟩, ⟨rfl, rfl, rfl⟩, ⟨rfl, rfl, rfl⟩, ⟨rfl, rfl, rfl⟩,
      ⟨rfl, rfl, rfl⟩, ⟨rfl, rfl, rfl⟩, ⟨rfl, rfl, rfl⟩⟩

/-- C2 witness: the discard evaluated on a concrete executed statement with a
pending three-column result. -/
theorem C2_witness :
    discardsResult (bindText ⟨some 5, 1, false, 3⟩ true).1 ∧
    discardsResult (bindInt ⟨some 5, 1, false, 3⟩ true).1 ∧
    discardsResult (bindInt64 ⟨some 5, 1, false, 3⟩ true).1 ∧
    discardsResult (bindDouble ⟨some 5, 1, false, 3⟩ true).1 ∧
    discardsResult (bindBlob ⟨some 5, 1, false, 3⟩ true).1 ∧
    discardsResult (bindNull ⟨some 5, 1, false, 3⟩ true).1 ∧
    discardsResult (bindSame ⟨some 5, 1, false, 3⟩).1 :=
  C2_rebind_discards_result 5 false 3 true

/-- C4: execute on a live statement steps the engine exactly once, issues the
implicit reset exactly when a row was pending, puts the bind cursor back at
1, and maps the step outcome: done clears hasRow and the column count, row
sets hasRow and takes the engine column count, and any other status throws,
with the dedicated busy exception on lock contention. -/
theorem C4_execute_outcomes (v : Nat) (bn : Int) (eor : Bool) (c0 cols code : Int)
    (msg : String) :
    (execute ⟨some v, bn, eor, c0⟩ code cols msg).2.1.steps = 1 ∧
    (execute ⟨some v, bn, eor, c0⟩ code cols msg).2.1.resets =
      (if hasRow ⟨some v, bn, eor, c0⟩ then 1 else 0) ∧
    (execute ⟨some v, bn, eor, c0⟩ code cols msg).1.mBindNext = 1 ∧
    (execute ⟨some v, bn, eor, c0⟩ SQLITE_DONE cols msg =
      (⟨some v, 1, true, 0⟩, ⟨if eor then 0 else 1, 1⟩, .ok ())) ∧
    (execute ⟨some v, bn, eor, c0⟩ SQLITE_ROW cols msg =
      (⟨some v, 1, false, cols⟩, ⟨if eor then 0 else 1, 1⟩, .ok ())) ∧
    (code ≠ SQLITE_DONE → code ≠ SQLITE_ROW →
      execute ⟨some v, bn, eor, c0⟩ code cols msg =
        (⟨some v, 1, eor, c0⟩, ⟨if eor then 0 else 1, 1⟩,
          .error (throwStatusCodeException code msg))) ∧
    (execute ⟨some v, bn, eor, c0⟩ SQLITE_BUSY cols msg).2.2 =
      .error SqlError.busyExc := by
  refine ⟨?_, ?_, ?_, ?_, ?_, ?_, ?_⟩
  · simp only [execute]
    split_ifs <;> rfl
  · cases eor <;> simp only [execute, hasRow, Bool.not_false, Bool.not_true] <;>
      split_ifs <;> first | rfl | assumption
  · simp only [execute]
    split_ifs <;> rfl
  · cases eor <;> simp [execute]
  · cases eor <;> simp [execute, SQLITE_ROW, SQLITE_DONE]
  · intro hd hr
    cases eor <;> simp [execute, hd, hr]
  · cases eor <;>
      simp [execute, SQLITE_BUSY, SQLITE_DONE, SQLITE_ROW, throwStatusCodeException]

/-- C4 witness: execute evaluated on a concrete statement mid-iteration, for
a done step, a row step, a failing step (status 7) and a busy step. -/
theorem C4_witness :
    (execute ⟨some 0, 3, false, 2⟩ 7 4 "m").2.1.steps = 1 ∧
    (execute ⟨some 0, 3, false, 2⟩ 7 4 "m").2.1.resets =
      (if hasRow ⟨some 0, 3, false, 2⟩ then 1 else 0) ∧
    (execute ⟨some 0, 3, false, 2⟩ 7 4 "m").1.mBindNext = 1 ∧
    (execute ⟨some 0, 3, false, 2⟩ SQLITE_DONE 4 "m" =
      (⟨some 0, 1, true, 0⟩, ⟨if false then 0 else 1, 1⟩, .ok ())) ∧
    (execute ⟨some 0, 3, false, 2⟩ SQLITE_ROW 4 "m" =
      (⟨some 0, 1, false, 4⟩, ⟨if false then 0 else 1, 1⟩, .ok ())) ∧
    ((7 : Int) ≠ SQLITE_DONE → (7 : Int) ≠ SQLITE_ROW →
      execute ⟨some 0, 3, false, 2⟩ 7 4 "m" =
        (⟨some 0, 1, false, 2⟩, ⟨if false then 0 else 1, 1⟩,
          .error (throwStatusCodeException 7 "m"))) ∧
    (execute ⟨some 0, 3, false, 2⟩ SQLITE_BUSY 4 "m").2.2 = .error SqlError.busyExc :=
  C4_execute_outcomes 0 3 false 2 4 7 "m"

/-- C5: close on a connection with a live derived statement fails with the
statements-still-open error and leaves the connection open; with every
derived statement destroyed it succeeds and releases the handle; on an
already closed connection it does nothing; and the destructor runs close but
swallows its error, returning only the resulting state. -/
theorem C5_close_discipline (h : Nat) (tmo : Int) (n : Nat) :
    (n ≠ 0 → closeW ⟨⟨some h, tmo⟩, n⟩ =
      (⟨⟨some h, tmo⟩, n⟩, .error (.dbExc (some closeStmtsMsg)))) ∧
    closeW ⟨⟨some h, tmo⟩, 0⟩ = (⟨⟨none, tmo⟩, 0⟩, .ok ()) ∧
    closeW ⟨⟨none, tmo⟩, n⟩ = (⟨⟨none, tmo⟩, n⟩, .ok ()) ∧
    closeW (destroyDerivedStmt ⟨⟨some h, tmo⟩, 1⟩) = (⟨⟨none, tmo⟩, 0⟩, .ok ()) ∧
    (n ≠ 0 → dbDtor ⟨⟨some h, tmo⟩, n⟩ = ⟨⟨some h, tmo⟩, n⟩) ∧
    dbDtor ⟨⟨some h, tmo⟩, 0⟩ = ⟨⟨none, tmo⟩, 0⟩ := by
  refine ⟨?_, rfl, rfl, rfl, ?_, rfl⟩
  · intro hn
    cases n with
    | zero => exact absurd rfl hn
    | succ k => rfl
  · intro hn
    cases n with
    | zero => exact absurd rfl hn
    | succ k => rfl

/-- C5 witness: the close discipline evaluated on a connection with two live
statements. -/
theorem C5_witness :
    ((2 : Nat) ≠ 0 → closeW ⟨⟨some 1, 60000⟩, 2⟩ =
      (⟨⟨some 1, 60000⟩, 2⟩, .error (.dbExc (some closeStmtsMsg)))) ∧
    closeW ⟨⟨some 1, 60000⟩, 0⟩ = (⟨⟨none, 60000⟩, 0⟩, .ok ()) ∧
    closeW ⟨⟨none, 60000⟩, 2⟩ = (⟨⟨none, 60000⟩, 2⟩, .ok ()) ∧
    closeW (destroyDerivedStmt ⟨⟨some 1, 60000⟩, 1⟩) = (⟨⟨none, 60000⟩, 0⟩, .ok ()) ∧
    ((2 : Nat) ≠ 0 → dbDtor ⟨⟨some 1, 60000⟩, 2⟩ = ⟨⟨some 1, 60000⟩, 2⟩) ∧
    dbDtor ⟨⟨some 1, 60000⟩, 0⟩ = ⟨⟨none, 60000⟩, 0⟩ :=
  C5_close_discipline 1 60000 2

/-- C7: getScalar returns the caller sentinel exactly when the query yielded
no row or the row has no column; otherwise it returns column 0 read through
getIntField with its default substitute 0, so a COUNT over an empty match
yields the scalar 0 and never the sentinel. -/
theorem C7_getScalar (v : Nat) (bn : Int) (eor : Bool) (cols : Int) (e : EngineRow)
    (ev : Int) :
    (eor = true → getScalar ⟨some v, bn, eor, cols⟩ e ev = .ok ev) ∧
    (eor = false → cols < 1 → getScalar ⟨some v, bn, eor, cols⟩ e ev = .ok ev) ∧
    (eor = false → 1 ≤ cols →
      getScalar ⟨some v, bn, eor, cols⟩ e ev =
        .ok (if e.colType 0 = SQLITE_NULL then 0 else e.colInt 0)) := by
  refine ⟨?_, ?_, ?_⟩
  · intro he
    subst he
    rfl
  · intro he hc
    subst he
    simp [getScalar, hasRow, currentRow, numFields, hc, Bind.bind, Except.bind,
      Pure.pure, Except.pure]
  · intro he hc
    subst he
    have h1 : ¬ (cols < 1) := by omega
    have h2 : ¬ (cols ≤ 0) := by omega
    simp only [getScalar, hasRow, currentRow, numFields, h1, getIntField, fieldDataType,
      checkIndex, h2, Bind.bind, Except.bind, Pure.pure, Except.pure]
    split <;> simp_all
    split <;> simp_all

/-- C7 witness: a one-column integer row holding 0 (a COUNT over an empty
match) makes getScalar with sentinel -1 return the scalar 0, which differs
from the sentinel; and with no row at all the sentinel comes back. -/
theorem C7_witness :
    ((false : Bool) = false → (1 : Int) ≤ 1 →
      getScalar ⟨some 0, 1, false, 1⟩ countEmptyRow (-1) =
        .ok (if countEmptyRow.colType 0 = SQLITE_NULL then 0 else countEmptyRow.colInt 0)) ∧
    getScalar ⟨some 0, 1, false, 1⟩ countEmptyRow (-1) = .ok 0 ∧
    ((0 : Int) ≠ -1) ∧
    ((true : Bool) = true → getScalar ⟨some 0, 1, true, 1⟩ countEmptyRow (-1) = .ok (-1)) :=
  ⟨(C7_getScalar 0 1 false 1 countEmptyRow (-1)).2.2,
   (C7_getScalar 0 1 false 1 countEmptyRow (-1)).2.2 rfl (by decide),
   by decide,
   (C7_getScalar 0 1 true 1 countEmptyRow (-1)).1⟩

/-- Helper: the bounds test of the status-description lookup passes exactly
when the status code is below 27; it has no lower bound. -/
theorem descrLookupGuard_iff (c : Int) : descrLookupGuard c = true ↔ c < 27 := by
  have hl : code_descr.length = 27 := rfl
  simp [descrLookupGuard, hl]

/-- C8 counterexample: at status code -1 (neither busy nor the generic error
code) the bounds test passes although -1 is outside the table, so the lookup
is performed on an out-of-bounds index; the rendered message is not the bare
numeric fallback but the undefined out-of-bounds read. -/
theorem C8_counterexample :
    descrLookupGuard (-1) = true ∧ ¬ ((0 : Int) ≤ -1) ∧
    (-1 : Int) ≠ SQLITE_BUSY ∧ (-1 : Int) ≠ SQLITE_ERROR ∧
    statusCodeMessage (-1) = none ∧
    throwStatusCodeException (-1) "m" = .dbExc none := by decide

/-- C8 amended: the table has 27 entries; for recognized codes 0..26 (other
than busy and the generic error code) the message carries the symbolic name;
for codes at or above 27 it falls back to the bare numeric code; but the
bounds test only enforces the upper bound, so for negative codes the lookup
is still performed with an index outside the table. -/
theorem C8_amended (c : Int) (msg : String) :
    code_descr.length = 27 ∧
    (descrLookupGuard c = true ↔ c < 27) ∧
    (0 ≤ c → c < 27 → c ≠ SQLITE_BUSY → c ≠ SQLITE_ERROR →
      ∃ d, code_descr.get? c.toNat = some d ∧
        throwStatusCodeException c msg =
          .dbExc (some ("Result code " ++ toString c ++ " (" ++ d ++ ")"))) ∧
    (27 ≤ c →
      throwStatusCodeException c msg = .dbExc (some ("Result code " ++ toString c))) ∧
    (c < 0 → descrLookupGuard c = true ∧ throwStatusCodeException c msg = .dbExc none) := by
  have hl : code_descr.length = 27 := rfl
  refine ⟨hl, descrLookupGuard_iff c, ?_, ?_, ?_⟩
  · intro h0 h27 hb he
    interval_cases c
    all_goals first
      | exact absurd rfl hb
      | exact absurd rfl he
      | exact ⟨_, rfl, rfl⟩
  · intro h27
    have hb : ¬ (c = SQLITE_BUSY) := by simp only [SQLITE_BUSY]; omega
    have he : ¬ (c = SQLITE_ERROR) := by simp only [SQLITE_ERROR]; omega
    have hg : ¬ (c < (code_descr.length : Int)) := by rw [hl]; push_cast; omega
    simp [throwStatusCodeException, hb, he, statusCodeMessage, descrLookupGuard, hg]
  · intro hneg
    have hb : ¬ (c = SQLITE_BUSY) := by simp only [SQLITE_BUSY]; omega
    have he : ¬ (c = SQLITE_ERROR) := by simp only [SQLITE_ERROR]; omega
    have hg : c < (code_descr.length : Int) := by rw [hl]; push_cast; omega
    have hn : ¬ ((0 : Int) ≤ c) := by omega
    refine ⟨by simp [descrLookupGuard, hg], ?_⟩
    simp [throwStatusCodeException, hb, he, statusCodeMessage, descrLookupGuard, hg,
      descrAt, hn]

/-- C8 amended witness: the amended statement evaluated at the recognized
code 7, at the unrecognized code 30, and at the negative code -1. -/
theorem C8_amended_witness :
    (0 ≤ (7 : Int) → (7 : Int) < 27 → (7 : Int) ≠ SQLITE_BUSY → (7 : Int) ≠ SQLITE_ERROR →
      ∃ d, code_descr.get? (7 : Int).toNat = some d ∧
        throwStatusCodeException 7 "m" =
          .dbExc (some ("Result code " ++ toString (7 : Int) ++ " (" ++ d ++ ")"))) ∧
    (27 ≤ (30 : Int) →
      throwStatusCodeException 30 "m" = .dbExc (some ("Result code " ++ toString (30 : Int)))) ∧
    ((-1 : Int) < 0 → descrLookupGuard (-1) = true ∧
      throwStatusCodeException (-1) "m" = .dbExc none) :=
  ⟨(C8_amended 7 "m").2.2.1, (C8_amended 30 "m").2.2.2.1, (C8_amended (-1) "m").2.2.2.2⟩

/-- Helper: a successful fieldScan starting at i over r columns returns an
index between i and i + r. -/
theorem fieldScan_some (e : EngineRow) (name : String) :
    ∀ (r i : Nat) (j : Int), fieldScan e name r i = some j →
      ∃ k : Nat, j = (k : Int) ∧ i ≤ k ∧ k < i + r := by
  intro r
  induction r with
  | zero =>
    intro i j h
    simp [fieldScan] at h
  | succ c ih =>
    intro i j h
    simp only [fieldScan] at h
    split at h
    · obtain rfl : Int.ofNat i = j := by simpa using h
      exact ⟨i, rfl, Nat.le_refl i, by omega⟩
    · obtain ⟨k, hk, hik, hkr⟩ := ih (i + 1) j h
      exact ⟨k, hk, by omega, by omega⟩

/-- Helper: a successful fieldIndex on a live statement returns an index
inside the current column range. -/
theorem fieldIndex_ok_bounds (v : Nat) (bn : Int) (eor : Bool) (cols : Int)
    (e : EngineRow) (name : String) (j : Int)
    (h : fieldIndex ⟨some v, bn, eor, cols⟩ e name = .ok j) :
    0 ≤ j ∧ j < cols := by
  simp only [fieldIndex] at h
  cases hs : fieldScan e name cols.toNat 0 with
  | none => rw [hs] at h; exact absurd h (by simp)
  | some i =>
    rw [hs] at h
    obtain rfl : i = j := by simpa using h
    obtain ⟨k, rfl, _, hkc⟩ := fieldScan_some e name cols.toNat 0 i hs
    omega

/-- Helper: fieldDataType on a live statement and a valid index returns the
engine type of the cell. -/
theorem fieldDataType_ok (v : Nat) (bn : Int) (eor : Bool) (cols : Int) (e : EngineRow)
    (j : Int) (h0 : 0 ≤ j) (hc : j < cols) :
    fieldDataType ⟨some v, bn, eor, cols⟩ e j = .ok (e.colType j) := by
  have hni : ¬ (j < 0 ∨ cols ≤ j) := by omega
  simp [fieldDataType, checkIndex, hni, Bind.bind, Except.bind, Pure.pure, Except.pure]

/-- Helper: getIntField on a live statement and a valid index. -/
theorem getIntField_ok (v : Nat) (bn : Int) (eor : Bool) (cols : Int) (e : EngineRow)
    (j : Int) (h0 : 0 ≤ j) (hc : j < cols) (nv : Int) :
    getIntField ⟨some v, bn, eor, cols⟩ e j nv =
      .ok (if e.colType j = SQLITE_NULL then nv else e.colInt j) := by
  simp only [getIntField, fieldDataType_ok v bn eor cols e j h0 hc, Bind.bind, Except.bind]
  split <;> rfl

/-- Helper: getInt64Field on a live statement and a valid index. -/
theorem getInt64Field_ok (v : Nat) (bn : Int) (eor : Bool) (cols : Int) (e : EngineRow)
    (j : Int) (h0 : 0 ≤ j) (hc : j < cols) (nv : Int) :
    getInt64Field ⟨some v, bn, eor, cols⟩ e j nv =
      .ok (if e.colType j = SQLITE_NULL then nv else e.colInt64 j) := by
  simp only [getInt64Field, fieldDataType_ok v bn eor cols e j h0 hc, Bind.bind, Except.bind]
  split <;> rfl

/-- Helper: getFloatField on a live statement and a valid index. -/
theorem getFloatField_ok (v : Nat) (bn : Int) (eor : Bool) (cols : Int) (e : EngineRow)
    (j : Int) (h0 : 0 ≤ j) (hc : j < cols) (fv : Float) :
    getFloatField ⟨some v, bn, eor, cols⟩ e j fv =
      .ok (if e.colType j = SQLITE_NULL then fv else e.colDouble j) := by
  simp only [getFloatField, fieldDataType_ok v bn eor cols e j h0 hc, Bind.bind, Except.bind]
  split <;> rfl

/-- Helper: getStringField on a live statement and a valid index. -/
theorem getStringField_ok (v : Nat) (bn : Int) (eor : Bool) (cols : Int) (e : EngineRow)
    (j : Int) (h0 : 0 ≤ j) (hc : j < cols) (sv : String) :
    getStringField ⟨some v, bn, eor, cols⟩ e j sv =
      .ok (if e.colType j = SQLITE_NULL then sv else e.colText j) := by
  simp only [getStringField, fieldDataType_ok v bn eor cols e j h0 hc, Bind.bind, Except.bind]
  split <;> rfl

/-- Helper: a name-based accessor built by binding a total-on-valid-indices
getter after fieldIndex fails with the field-not-found error exactly when
fieldIndex does. -/
theorem byName_error_iff (v : Nat) (bn : Int) (eor : Bool) (cols : Int) (e : EngineRow)
    (name : String) {α : Type} (g : Int → Except SqlError α)
    (hg : ∀ j, 0 ≤ j → j < cols → ∃ a, g j = .ok a) :
    (fieldIndex ⟨some v, bn, eor, cols⟩ e name >>= g) =
        .error (.dbExc (some fieldNotFoundMsg)) ↔
      fieldIndex ⟨some v, bn, eor, cols⟩ e name =
        .error (.dbExc (some fieldNotFoundMsg)) := by
  cases hfi : fieldIndex ⟨some v, bn, eor, cols⟩ e name with
  | error m => simp [Bind.bind, Except.bind]
  | ok j =>
    obtain ⟨hj0, hjc⟩ := fieldIndex_ok_bounds v bn eor cols e name j hfi
    obtain ⟨a, ha⟩ := hg j hj0 hjc
    simp [Bind.bind, Except.bind, ha]

/-- C6: on a live statement and a valid column index, every typed getter
returns exactly the caller substitute when the cell runtime type is null and
the engine-coerced value otherwise; the name-based overloads delegate to
fieldIndex then the index-based form, so they fail with the field-not-found
error exactly when fieldIndex does. -/
theorem C6_typed_getters (v : Nat) (bn : Int) (eor : Bool) (cols : Int) (e : EngineRow)
    (i nv nv64 : Int) (fv : Float) (sv : String) (name : String)
    (hi : 0 ≤ i) (hic : i < cols) :
    (e.colType i = SQLITE_NULL →
      getIntField ⟨some v, bn, eor, cols⟩ e i nv = .ok nv ∧
      getInt64Field ⟨some v, bn, eor, cols⟩ e i nv64 = .ok nv64 ∧
      getFloatField ⟨some v, bn, eor, cols⟩ e i fv = .ok fv ∧
      getStringField ⟨some v, bn, eor, cols⟩ e i sv = .ok sv) ∧
    (e.colType i ≠ SQLITE_NULL →
      getIntField ⟨some v, bn, eor, cols⟩ e i nv = .ok (e.colInt i) ∧
      getInt64Field ⟨some v, bn, eor, cols⟩ e i nv64 = .ok (e.colInt64 i) ∧
      getFloatField ⟨some v, bn, eor, cols⟩ e i fv = .ok (e.colDouble i) ∧
      getStringField ⟨some v, bn, eor, cols⟩ e i sv = .ok (e.colText i)) ∧
    (∀ j, fieldIndex ⟨some v, bn, eor, cols⟩ e name = .ok j →
      getIntFieldByName ⟨some v, bn, eor, cols⟩ e name nv =
        getIntField ⟨some v, bn, eor, cols⟩ e j nv ∧
      getInt64FieldByName ⟨some v, bn, eor, cols⟩ e name nv64 =
        getInt64Field ⟨some v, bn, eor, cols⟩ e j nv64 ∧
      getFloatFieldByName ⟨some v, bn, eor, cols⟩ e name fv =
        getFloatField ⟨some v, bn, eor, cols⟩ e j fv ∧
      getStringFieldByName ⟨some v, bn, eor, cols⟩ e name sv =
        getStringField ⟨some v, bn, eor, cols⟩ e j sv) ∧
    (getIntFieldByName ⟨some v, bn, eor, cols⟩ e name nv =
        .error (.dbExc (some fieldNotFoundMsg)) ↔
      fieldIndex ⟨some v, bn, eor, cols⟩ e name = .error (.dbExc (some fieldNotFoundMsg))) ∧
    (getInt64FieldByName ⟨some v, bn, eor, cols⟩ e name nv64 =
        .error (.dbExc (some fieldNotFoundMsg)) ↔
      fieldIndex ⟨some v, bn, eor, cols⟩ e name = .error (.dbExc (some fieldNotFoundMsg))) ∧
    (getFloatFieldByName ⟨some v, bn, eor, cols⟩ e name fv =
        .error (.dbExc (some fieldNotFoundMsg)) ↔
      fieldIndex ⟨some v, bn, eor, cols⟩ e name = .error (.dbExc (some fieldNotFoundMsg))) ∧
    (getStringFieldByName ⟨some v, bn, eor, cols⟩ e name sv =
        .error (.dbExc (some fieldNotFoundMsg)) ↔
      fieldIndex ⟨some v, bn, eor, cols⟩ e name = .error (.dbExc (some fieldNotFoundMsg))) := by
  refine ⟨?_, ?_, ?_, ?_, ?_, ?_, ?_⟩
  · intro ht
    rw [getIntField_ok v bn eor cols e i hi hic nv,
      getInt64Field_ok v bn eor cols e i hi hic nv64,
      getFloatField_ok v bn eor cols e i hi hic fv,
      getStringField_ok v bn eor cols e i hi hic sv]
    simp [ht]
  · intro ht
    rw [getIntField_ok v bn eor cols e i hi hic nv,
      getInt64Field_ok v bn eor cols e i hi hic nv64,
      getFloatField_ok v bn eor cols e i hi hic fv,
      getStringField_ok v bn eor cols e i hi hic sv]
    simp [ht]
  · intro j hj
    refine ⟨?_, ?_, ?_, ?_⟩ <;>
      simp [getIntFieldByName, getInt64FieldByName, getFloatFieldByName,
        getStringFieldByName, hj, Bind.bind, Except.bind]
  · exact byName_error_iff v bn eor cols e name _
      (fun j hj0 hjc => ⟨_, getIntField_ok v bn eor cols e j hj0 hjc nv⟩)
  · exact byName_error_iff v bn eor cols e name _
      (fun j hj0 hjc => ⟨_, getInt64Field_ok v bn eor cols e j hj0 hjc nv64⟩)
  · exact byName_error_iff v bn eor cols e name _
      (fun j hj0 hjc => ⟨_, getFloatField_ok v bn eor cols e j hj0 hjc fv⟩)
  · exact byName_error_iff v bn eor cols e name _
      (fun j hj0 hjc => ⟨_, getStringField_ok v bn eor cols e j hj0 hjc sv⟩)

/-- C6 witness: the getters evaluated on a concrete all-null row (returning
the supplied substitutes 9, 8, 2.5 and z) and on a concrete integer row
(returning the engine values), plus the field-not-found equivalence for an
unmatched name. -/
theorem C6_witness :
    ((0 : Int) ≤ 0 ∧ (0 : Int) < 2) ∧
    (nullRow.colType 0 = SQLITE_NULL →
      getIntField ⟨some 1, 1, false, 2⟩ nullRow 0 9 = .ok 9 ∧
      getInt64Field ⟨some 1, 1, false, 2⟩ nullRow 0 8 = .ok 8 ∧
      getFloatField ⟨some 1, 1, false, 2⟩ nullRow 0 2.5 = .ok 2.5 ∧
      getStringField ⟨some 1, 1, false, 2⟩ nullRow 0 "z" = .ok "z") ∧
    (sampleRow.colType 0 ≠ SQLITE_NULL →
      getIntField ⟨some 1, 1, false, 2⟩ sampleRow 0 9 = .ok (sampleRow.colInt 0) ∧
      getInt64Field ⟨some 1, 1, false, 2⟩ sampleRow 0 8 = .ok (sampleRow.colInt64 0) ∧
      getFloatField ⟨some 1, 1, false, 2⟩ sampleRow 0 2.5 = .ok (sampleRow.colDouble 0) ∧
      getStringField ⟨some 1, 1, false, 2⟩ sampleRow 0 "z" = .ok (sampleRow.colText 0)) ∧
    (getIntFieldByName ⟨some 1, 1, false, 2⟩ sampleRow "missing" 9 =
        .error (.dbExc (some fieldNotFoundMsg)) ↔
      fieldIndex ⟨some 1, 1, false, 2⟩ sampleRow "missing" =
        .error (.dbExc (some fieldNotFoundMsg))) :=
  ⟨⟨by decide, by decide⟩,
   (C6_typed_getters 1 1 false 2 nullRow 0 9 8 2.5 "z" "missing" (by decide) (by decide)).1,
   (C6_typed_getters 1 1 false 2 sampleRow 0 9 8 2.5 "z" "missing" (by decide) (by decide)).2.1,
   (C6_typed_getters 1 1 false 2 sampleRow 0 9 8 2.5 "z" "missing" (by decide)
     (by decide)).2.2.2.1⟩

end CppSql
